import Mathlib

/-!
Shallow embedding of the AMQP adapter of moleculer-channels
(src/adapters/amqp.js, src/constants.js, src/utils.js).

JavaScript specifics are carried over explicitly:
- string truthiness (`s ? a : b`, `a || b`) is the test `s ≠ ""`;
- `chan.maxRetries` may be unset (`Option Int`, `none` = undefined/null),
  and `!chan.maxRetries` is true exactly when it is unset or `0`;
- object spread `{ ...a, ...b }` lets the later object win on shared keys;
- header maps are partial maps `String → Option String`.
-/

namespace MoleculerChannels

/-- Header and timeout constants (src/constants.js). -/
def HEADER_DEAD_LETTER : String := "x-death"

def HEADER_ORIGINAL_CHANNEL : String := "x-original-channel"

def HEADER_ORIGINAL_GROUP : String := "x-original-group"

def HEADER_ERROR_MESSAGE : String := "x-error-message"

def DEFAULT_PUBLISH_TIMEOUT : Nat := 10000

/-- JS `a ? a : b` / `a || b` on strings: a string is truthy iff non-empty. -/
def jsOrString (a b : String) : String := if a ≠ "" then a else b

/-- A thrown JS error, as far as the adapter inspects it: its message and the
two `instanceof` facts the consumer handler tests
(`err instanceof MoleculerError`, `err instanceof MoleculerRetryableError`). -/
structure JsError where
  message : String
  isMoleculerError : Bool
  isMoleculerRetryableError : Bool
deriving DecidableEq, Repr

/-- `new MoleculerError(msg)`: a framework error that is not retryable. -/
def mkMoleculerError (msg : String) : JsError :=
  ⟨msg, true, false⟩

/-- `new MoleculerRetryableError(msg)`: a retryable framework error
(`MoleculerRetryableError extends MoleculerError`). -/
def mkMoleculerRetryableError (msg : String) : JsError :=
  ⟨msg, true, true⟩

/-- Guard of the non-retryable branch (amqp.js line 470):
`err instanceof MoleculerError && !(err instanceof MoleculerRetryableError)`. -/
def isNonRetryableClass (e : JsError) : Bool :=
  e.isMoleculerError && !e.isMoleculerRetryableError

/-- JS falsiness of `chan.maxRetries` (amqp.js line 491 `!chan.maxRetries`):
unset or zero. -/
def mrFalsy : Option Int → Bool
  | none => true
  | some v => v == 0

/-- Numeric value used in comparisons; `none` (undefined) compares as NaN in
JS, for which `NaN > 0` and `count >= NaN` are both false. -/
def mrPos : Option Int → Bool
  | none => false
  | some v => 0 < v

def mrVal : Option Int → Int
  | none => 0
  | some v => v

/-- Terminal decision the consumer handler takes for one delivery. -/
inductive Disposition
  | ackSuccess
  | deadLetter
  | ackDrop
  | nackRetry
deriving DecidableEq, Repr

/-- `xDeath ? xDeath[0].count : 0`, then `redeliveryCount++`
(amqp.js lines 506-509). `xd` is the count of the first death-history entry
of the `x-death` header, `none` when the header is absent. -/
def redeliveryCount (xd : Option Nat) : Nat :=
  xd.getD 0 + 1

/-- The error-classification part of the consumer handler
(amqp.js lines 468-536): non-retryable framework errors go straight to
dead-letter/drop; with no retries configured, dead-letter/drop; with the
incremented redelivery count at or above a positive `maxRetries`,
dead-letter/drop; otherwise nack into the retry queue. -/
def classifyError (dl : Bool) (mr : Option Int) (xd : Option Nat) (e : JsError) :
    Disposition :=
  if isNonRetryableClass e then
    if dl then .deadLetter else .ackDrop
  else if mrFalsy mr then
    if dl then .deadLetter else .ackDrop
  else if mrPos mr && (redeliveryCount xd : Int) ≥ mrVal mr then
    if dl then .deadLetter else .ackDrop
  else
    .nackRetry

/-- Repeated deliveries of one message whose handler always throws `e`:
`c` is the broker-side death count so far (the `x-death` header is absent on
the first delivery and carries the number of rejections afterwards).  On
`nackRetry` the broker re-delivers with the count incremented.  Returns the
total number of handler invocations together with the terminal disposition;
`none` when the fuel ran out first. -/
def retryRun (dl : Bool) (mr : Option Int) (e : JsError) :
    Nat → Nat → Option (Nat × Disposition)
  | 0, _ => none
  | fuel + 1, c =>
    match classifyError dl mr (if c = 0 then none else some c) e with
    | .nackRetry => retryRun dl mr e fuel (c + 1)
    | d => some (c + 1, d)

/-- Message identity (amqp.js lines 450-452):
`msg.properties.correlationId || consumerTag:deliveryTag`
(an empty correlation id is falsy in JS). -/
def messageId (correlationId consumerTag : String) (deliveryTag : Nat) : String :=
  if correlationId ≠ "" then correlationId
  else consumerTag ++ ":" ++ toString deliveryTag

/-- Observable events of one consumer-handler invocation, in program order. -/
inductive CEvent
  | addActive (id : String)
  | removeActive (id : String)
  | ackMsg
  | nackMsg
  | dlPublish
deriving DecidableEq, Repr

/-- Broker/tracker events a disposition produces: `moveToDeadLetter`
publishes then acks; a drop acks; a retry nacks with `requeue = false`. -/
def terminalEvents : Disposition → List CEvent
  | .ackSuccess => [.ackMsg]
  | .deadLetter => [.dlPublish, .ackMsg]
  | .ackDrop => [.ackMsg]
  | .nackRetry => [.nackMsg]

/-- One consumer-handler invocation (amqp.js lines 444-539) as its event
trace.  `res` is the handler outcome (`none` = returned, `some e` = threw
`e`).  When the channel is unsubscribing the message is skipped untouched.
On success: add to the active set, ack, remove.  On error: the catch block
removes from the active set first, then classifies and acts. -/
def consumerRun (unsubscribing dl : Bool) (mr : Option Int)
    (correlationId consumerTag : String) (deliveryTag : Nat)
    (xd : Option Nat) (res : Option JsError) : List CEvent :=
  if unsubscribing then []
  else
    let id := messageId correlationId consumerTag deliveryTag
    match res with
    | none => [.addActive id, .ackMsg, .removeActive id]
    | some e =>
        .addActive id :: .removeActive id ::
          terminalEvents (classifyError dl mr xd e)

/-- Effect of one event on a channel's active-message set. -/
def applyEvent (s : Finset String) : CEvent → Finset String
  | .addActive i => insert i s
  | .removeActive i => s.erase i
  | _ => s

/-- `{ [HEADER_ORIGINAL_CHANNEL]: chan.name, [HEADER_ORIGINAL_GROUP]:
chan.group, [HEADER_ERROR_MESSAGE]: err.message }` as a partial map. -/
def provenanceHeaders (chanName chanGroup errMsg : String) :
    String → Option String :=
  fun k =>
    if k = HEADER_ORIGINAL_CHANNEL then some chanName
    else if k = HEADER_ORIGINAL_GROUP then some chanGroup
    else if k = HEADER_ERROR_MESSAGE then some errMsg
    else none

/-- JS object spread `{ ...a, ...b }`: keys of `b` win. -/
def jsSpread (a b : String → Option String) : String → Option String :=
  fun k =>
    match b k with
    | some v => some v
    | none => a k

/-- A `channel.publish` call made by `moveToDeadLetter`. -/
structure DLPublish where
  exchange : String
  routingKey : String
  body : List Nat
  headers : String → Option String

/-- Broker operations `moveToDeadLetter` performs, in order. -/
inductive DLEvent
  | publishEvt (p : DLPublish)
  | ackEvt

/-- `moveToDeadLetter` (amqp.js lines 548-566): publish the raw message
content to `deadLettering.exchangeName || ""` with routing key
`deadLettering.queueName` and headers
`{ provenance..., ...msg.properties.headers }`, then ack the original. -/
def moveToDeadLetter (dlExchangeName dlQueueName chanName chanGroup : String)
    (content : List Nat) (preHeaders : String → Option String)
    (errMsg : String) : List DLEvent :=
  [ .publishEvt
      { exchange := jsOrString dlExchangeName ""
        routingKey := dlQueueName
        body := content
        headers := jsSpread (provenanceHeaders chanName chanGroup errMsg)
          preHeaders },
    .ackEvt ]

/-- `chan.group ? group.name : name` (amqp.js line 326). -/
def queueName (nm grp : String) : String :=
  if grp ≠ "" then grp ++ "." ++ nm else nm

/-- `chan.group ? group.retry : queueName.retry` (amqp.js line 327). -/
def retryExchangeName (nm grp : String) : String :=
  if grp ≠ "" then grp ++ ".retry" else queueName nm grp ++ ".retry"

/-- `queueName.retry` (amqp.js line 328). -/
def retryQueueName (nm grp : String) : String :=
  queueName nm grp ++ ".retry"

/-- Dead-letter target of the main queue's assert options. -/
structure DeadLetterTarget where
  deadLetterExchange : Option String
  deadLetterRoutingKey : Option String
deriving DecidableEq, Repr

/-- Main-queue options (amqp.js lines 374-382): when `maxRetries > 0` the
dead-letter target is the retry exchange with the retry queue name as
routing key; otherwise no dead-letter target is set. -/
def mainQueueDeadLetterTarget (nm grp : String) (mr : Option Int) :
    DeadLetterTarget :=
  if mrPos mr then
    ⟨some (retryExchangeName nm grp), some (retryQueueName nm grp)⟩
  else
    ⟨none, none⟩

/-- One `tryConnect` selection (amqp.js lines 165-171): increment the
process-lifetime attempt counter, select index `(attempt - 1) % length`. -/
def tryConnectAttempt (prevAttempt : Nat) (urls : List String) :
    Nat × Option String :=
  let a := prevAttempt + 1
  (a, urls.get? ((a - 1) % urls.length))

/-- Attempt counter after `k` connection attempts, starting from the
constructor's `connectAttempt = 0`; it is never reset. -/
def connectAttemptAfter (urls : List String) : Nat → Nat
  | 0 => 0
  | k + 1 => (tryConnectAttempt (connectAttemptAfter urls k) urls).1

/-- Endpoint selected by the `k`-th connection attempt (counting from 1). -/
def selectedAt (urls : List String) (k : Nat) : Option String :=
  (tryConnectAttempt (connectAttemptAfter urls (k - 1)) urls).2

/-- `poll` (src/utils.js): `endTime = now + (timeout || 2000)` with the
clock starting at 0. -/
def pollEndTime (timeout : Nat) : Nat :=
  if timeout = 0 then 2000 else timeout

/-- The `poll` loop of src/utils.js at 1 ms granularity, with `r` the
remaining milliseconds until `endTime`: check the condition at the current
time; resolve when true, step 1 ms while time is before `endTime`
(`r > 0`), and reject once `endTime` is reached with the condition still
false. -/
def pollLoop (ready : Nat → Bool) : Nat → Nat → Bool
  | t, 0 => ready t
  | t, r + 1 => if ready t then true else pollLoop ready (t + 1) r

/-- `poll(fn, timeout, 1)` started at clock time `t`: succeeds iff the
condition turns true at some checked millisecond `u` with
`t ≤ u ≤ endTime`. -/
def pollRun (ready : Nat → Bool) (endTime t : Nat) : Bool :=
  pollLoop ready t (endTime - t)

/-- Message-level timeout: per-call `opts.timeout` merged over the adapter
default `messageOptions.timeout = DEFAULT_PUBLISH_TIMEOUT`. -/
def resolvedTimeout (optsTimeout : Option Nat) : Nat :=
  optsTimeout.getD DEFAULT_PUBLISH_TIMEOUT

/-- Side effects of `publish` the claims observe. -/
inductive PubAction
  | serialize
  | send
deriving DecidableEq, Repr

/-- How a `publish` call ends. -/
inductive PubOutcome
  | noop
  | threw (e : JsError)
  | sent
deriving DecidableEq, Repr

/-- `publish` (amqp.js lines 640-715): return silently while stopping;
throw a `MoleculerRetryableError` when not connected; otherwise serialize,
then send immediately when the write buffer is ready, else poll the
readiness flag until the message timeout and send — or throw a plain
`MoleculerError` "write buffer full" on timeout.  `ready t` is the value of
`isWriteBufferReady()` at millisecond `t` of the poll. -/
def publishModel (stopping connected writeBufferReady : Bool)
    (ready : Nat → Bool) (optsTimeout : Option Nat) :
    PubOutcome × List PubAction :=
  if stopping then (.noop, [])
  else if !connected then
    (.threw (mkMoleculerRetryableError
      "Adapter not yet connected. Skipping publishing."), [])
  else
    let timeout := resolvedTimeout optsTimeout
    if writeBufferReady then (.sent, [.serialize, .send])
    else if pollRun ready (pollEndTime timeout) 0 then
      (.sent, [.serialize, .send])
    else
      (.threw (mkMoleculerError "AMQP publish error: write buffer full"),
        [.serialize])

/-- Modelled from the spec: the base adapter's `addPrefixTopic`
(src/adapters/base.js is not part of the sources) — "queueName/exchangeName
are resolved (prefixed) once at subscribe time": when a topic prefix is
configured the topic is prefixed with it, else returned unchanged. -/
def addPrefixTopic (pfx topic : String) : String :=
  if pfx ≠ "" then pfx ++ "." ++ topic else topic

/-- Resolution of `deadLettering.exchangeName` in `subscribe`
(amqp.js lines 335-339): default to "DEAD_LETTER" when unset/empty, then
prefix. -/
def resolvedDLExchangeName (pfx supplied : String) : String :=
  addPrefixTopic pfx (jsOrString supplied "DEAD_LETTER")

/-! ### Helper lemmas -/

/-- The attempt counter counts the attempts: after `k` attempts it is `k`. -/
theorem connectAttemptAfter_eq (urls : List String) (k : Nat) :
    connectAttemptAfter urls k = k := by
  induction k with
  | zero => rfl
  | succ n ih => simp [connectAttemptAfter, tryConnectAttempt, ih]

/-! ### Claims -/

/-- C2: a handler error that is a framework error but not a retryable
framework error is dead-lettered when dead-lettering is enabled and
acknowledged-and-dropped when disabled, on that very attempt, and is never
negatively acknowledged into the retry queue — for every `maxRetries` and
every death-history count. -/
theorem nonRetryable_bypasses_retry (dl : Bool) (mr : Option Int)
    (xd : Option Nat) (e : JsError) (cid ct : String) (dt : Nat)
    (he : isNonRetryableClass e = true) :
    classifyError dl mr xd e =
      (if dl then Disposition.deadLetter else Disposition.ackDrop)
    ∧ classifyError dl mr xd e ≠ Disposition.nackRetry
    ∧ CEvent.nackMsg ∉ consumerRun false dl mr cid ct dt xd (some e) := by
  have hclass : classifyError dl mr xd e =
      (if dl then Disposition.deadLetter else Disposition.ackDrop) := by
    simp [classifyError, he]
  refine ⟨hclass, ?_, ?_⟩
  · rw [hclass]; cases dl <;> simp
  · simp only [consumerRun, if_neg (Bool.false_ne_true), hclass]
    cases dl <;> simp [terminalEvents]

/-- Witness for C2 at a concrete non-retryable error with retry budget
remaining (`maxRetries = 5`, first delivery). -/
theorem nonRetryable_bypasses_retry_witness :
    classifyError true (some 5) none (mkMoleculerError "bad payload") =
      Disposition.deadLetter
    ∧ CEvent.nackMsg ∉
        consumerRun false true (some 5) "" "ctag" 1 none
          (some (mkMoleculerError "bad payload")) := by
  have h := nonRetryable_bypasses_retry true (some 5) none
    (mkMoleculerError "bad payload") "" "ctag" 1 (by decide)
  exact ⟨by simpa using h.1, h.2.2⟩

/-- C9: an error that is not an instance of the framework's base error
class is classified as retryable — it never takes the non-retryable
branch — and with a positive `maxRetries` and budget remaining it is
negatively acknowledged into the retry queue; only errors with
`isMoleculerError` and without `isMoleculerRetryableError` take the
non-retryable branch. -/
theorem plain_errors_are_retryable (e : JsError) (dl : Bool) (m : Int)
    (xd : Option Nat) (he : e.isMoleculerError = false) (hm : 0 < m)
    (hbudget : (redeliveryCount xd : Int) < m) :
    isNonRetryableClass e = false
    ∧ classifyError dl (some m) xd e = Disposition.nackRetry
    ∧ (∀ e2 : JsError, isNonRetryableClass e2 = true ↔
        e2.isMoleculerError = true ∧ e2.isMoleculerRetryableError = false) := by
  have h0 : isNonRetryableClass e = false := by
    simp [isNonRetryableClass, he]
  refine ⟨h0, ?_, ?_⟩
  · have h1 : mrFalsy (some m) = false := by
      simp [mrFalsy]; omega
    have h2 : mrPos (some m) = true := by
      simpa [mrPos] using hm
    simp [classifyError, h0, h1, h2, mrVal, not_le.mpr hbudget]
  · intro e2
    simp [isNonRetryableClass, Bool.and_eq_true]

/-- Witness for C9: a plain (non-framework) error on its third delivery
with `maxRetries = 5` is nacked into the retry queue. -/
theorem plain_errors_are_retryable_witness :
    isNonRetryableClass ⟨"type error", false, false⟩ = false
    ∧ classifyError true (some 5) (some 2) ⟨"type error", false, false⟩ =
        Disposition.nackRetry := by
  have h := plain_errors_are_retryable ⟨"type error", false, false⟩ true 5
    (some 2) (by decide) (by decide) (by decide)
  exact ⟨h.1, h.2.1⟩

/-- C5 fails as stated: with name "n" and group "g" the retry exchange is
"g.retry", not the claimed `queueName ++ ".retry"` = "g.n.retry". -/
theorem retryExchangeName_counterexample :
    retryExchangeName "n" "g" ≠ queueName "n" "g" ++ ".retry" := by
  decide

/-- C5 (amended): the retry queue is named `<queueName>.retry`; the retry
exchange is named `<group>.retry` when a group is set and
`<queueName>.retry` otherwise; when `maxRetries > 0` the main queue's
dead-letter exchange and routing key are exactly this retry exchange and
retry queue. -/
theorem retry_topology_names (nm grp : String) (mr : Option Int)
    (h : mrPos mr = true) :
    mainQueueDeadLetterTarget nm grp mr =
      ⟨some (retryExchangeName nm grp), some (retryQueueName nm grp)⟩
    ∧ retryQueueName nm grp = queueName nm grp ++ ".retry"
    ∧ (grp ≠ "" → retryExchangeName nm grp = grp ++ ".retry")
    ∧ (grp = "" → retryExchangeName nm grp = queueName nm grp ++ ".retry") := by
  refine ⟨by simp [mainQueueDeadLetterTarget, h], rfl, ?_, ?_⟩
  · intro hg; simp [retryExchangeName, hg]
  · intro hg; simp [retryExchangeName, hg]

/-- Witness for C5 (amended) at name "n", group "g", `maxRetries = 3`. -/
theorem retry_topology_names_witness :
    mainQueueDeadLetterTarget "n" "g" (some 3) =
      ⟨some "g.retry", some "g.n.retry"⟩ := by
  have h := retry_topology_names "n" "g" (some 3) (by decide)
  rw [h.1]; decide

/-- C6: the `k`-th connection attempt (counting from 1, counter never
reset) selects the endpoint at index `(k - 1) % length`. -/
theorem round_robin_selection (urls : List String) (k : Nat)
    (hL : 1 < urls.length) (hk : 1 ≤ k) :
    selectedAt urls k = urls.get? ((k - 1) % urls.length)
    ∧ connectAttemptAfter urls k = k := by
  constructor
  · simp [selectedAt, tryConnectAttempt, connectAttemptAfter_eq]
  · exact connectAttemptAfter_eq urls k

/-- Witness for C6: endpoints [A, B, C] are selected in order
A, B, C, A, B over the first five attempts. -/
theorem round_robin_selection_witness :
    selectedAt ["A", "B", "C"] 1 = some "A"
    ∧ selectedAt ["A", "B", "C"] 2 = some "B"
    ∧ selectedAt ["A", "B", "C"] 3 = some "C"
    ∧ selectedAt ["A", "B", "C"] 4 = some "A"
    ∧ selectedAt ["A", "B", "C"] 5 = some "B" := by
  refine ⟨?_, ?_, ?_, ?_, ?_⟩
  · rw [(round_robin_selection ["A", "B", "C"] 1 (by decide) (by decide)).1]
    decide
  · rw [(round_robin_selection ["A", "B", "C"] 2 (by decide) (by decide)).1]
    decide
  · rw [(round_robin_selection ["A", "B", "C"] 3 (by decide) (by decide)).1]
    decide
  · rw [(round_robin_selection ["A", "B", "C"] 4 (by decide) (by decide)).1]
    decide
  · rw [(round_robin_selection ["A", "B", "C"] 5 (by decide) (by decide)).1]
    decide

/-- C7: `publish` returns silently, performing no action, while the
stopping flag is set (for any connection state); when not stopping and not
connected it throws a retryable framework error before serializing or
sending anything. -/
theorem publish_guards (connected2 wb : Bool) (ready : Nat → Bool)
    (ot : Option Nat) (connected : Bool) (hc : connected = false) :
    publishModel true connected2 wb ready ot = (.noop, [])
    ∧ publishModel false connected wb ready ot =
        (.threw (mkMoleculerRetryableError
          "Adapter not yet connected. Skipping publishing."), [])
    ∧ (mkMoleculerRetryableError
        "Adapter not yet connected. Skipping publishing.").isMoleculerRetryableError
        = true := by
  subst hc
  exact ⟨rfl, rfl, rfl⟩

/-- Witness for C7 at concrete flags. -/
theorem publish_guards_witness :
    publishModel true true true (fun _ => true) none = (.noop, [])
    ∧ publishModel false false true (fun _ => true) none =
        (.threw (mkMoleculerRetryableError
          "Adapter not yet connected. Skipping publishing."), []) := by
  have h := publish_guards true true (fun _ => true) none false rfl
  exact ⟨h.1, h.2.1⟩

/-- C3: `moveToDeadLetter` publishes the raw message body unchanged, with
the pre-existing headers merged over the three provenance headers — a
pre-existing header is preserved and never overwritten, and a key the
message does not carry gets its provenance value — and acknowledges the
original message after the publish. -/
theorem dead_letter_publish_shape (dlEx q cn cg em : String)
    (content : List Nat) (pre : String → Option String) (k v k2 : String)
    (hk : pre k = some v) (hk2 : pre k2 = none) :
    ∃ p : DLPublish,
      moveToDeadLetter dlEx q cn cg content pre em =
        [DLEvent.publishEvt p, DLEvent.ackEvt]
      ∧ p.body = content
      ∧ p.routingKey = q
      ∧ p.headers k = some v
      ∧ p.headers k2 = provenanceHeaders cn cg em k2
      ∧ provenanceHeaders cn cg em HEADER_ORIGINAL_CHANNEL = some cn
      ∧ provenanceHeaders cn cg em HEADER_ORIGINAL_GROUP = some cg
      ∧ provenanceHeaders cn cg em HEADER_ERROR_MESSAGE = some em := by
  refine ⟨_, rfl, rfl, rfl, ?_, ?_, ?_, ?_, ?_⟩
  · simp [jsSpread, hk]
  · simp [jsSpread, hk2]
  · simp [provenanceHeaders]
  · simp [provenanceHeaders, HEADER_ORIGINAL_GROUP, HEADER_ORIGINAL_CHANNEL]
  · simp [provenanceHeaders, HEADER_ERROR_MESSAGE, HEADER_ORIGINAL_CHANNEL,
      HEADER_ORIGINAL_GROUP]

/-- Witness for C3: a message already carrying an "x-error-message" header
keeps its own value; the other two provenance headers are attached. -/
theorem dead_letter_publish_shape_witness :
    ∃ p : DLPublish,
      moveToDeadLetter "DLX" "DLQ" "chan" "grp" [1, 2, 3]
        (fun k => if k = "x-error-message" then some "kept" else none)
        "boom" = [DLEvent.publishEvt p, DLEvent.ackEvt]
      ∧ p.body = [1, 2, 3]
      ∧ p.headers "x-error-message" = some "kept"
      ∧ p.headers "x-original-channel" = some "chan" := by
  obtain ⟨p, h1, h2, _, h4, h5, h6, -, -⟩ :=
    dead_letter_publish_shape "DLX" "DLQ" "chan" "grp" "boom" [1, 2, 3]
      (fun k => if k = "x-error-message" then some "kept" else none)
      "x-error-message" "kept" "x-original-channel"
      (by decide) (by decide)
  refine ⟨p, h1, h2, h4, ?_⟩
  rw [h5]
  exact h6

/-- A JS string-`or` is non-empty whenever its fallback is. -/
theorem jsOrString_ne_empty (a b : String) (hb : b ≠ "") :
    jsOrString a b ≠ "" := by
  unfold jsOrString
  split
  · assumption
  · exact hb

/-- Prefixing never empties a non-empty topic name. -/
theorem addPrefixTopic_ne_empty (pfx topic : String) (ht : topic ≠ "") :
    addPrefixTopic pfx topic ≠ "" := by
  unfold addPrefixTopic
  split
  · intro h
    have hl := congrArg String.length h
    rw [String.length_append, String.length_append] at hl
    have hdot : (".").length = 1 := by decide
    have hempty : ("" : String).length = 0 := by decide
    omega
  · exact ht

/-- After resolution in `subscribe`, the dead-letter exchange name is never
the empty string: the supplied name defaults to "DEAD_LETTER" when falsy,
and prefixing preserves non-emptiness. -/
theorem resolvedDLExchangeName_ne_empty (pfx supplied : String) :
    resolvedDLExchangeName pfx supplied ≠ "" := by
  unfold resolvedDLExchangeName
  exact addPrefixTopic_ne_empty pfx _
    (jsOrString_ne_empty supplied "DEAD_LETTER" (by decide))

/-- C10: for every channel subscribed with dead-lettering enabled, the
resolved `deadLettering.exchangeName` is a non-empty string (defaulting to
the prefixed "DEAD_LETTER"), so `moveToDeadLetter` always publishes through
that exchange and its empty-exchange fallback is unreachable. -/
theorem dl_exchange_always_set (pfx supplied q cn cg em : String)
    (content : List Nat) (pre : String → Option String) :
    resolvedDLExchangeName pfx supplied ≠ ""
    ∧ resolvedDLExchangeName "" "" = "DEAD_LETTER"
    ∧ ∃ p : DLPublish,
        moveToDeadLetter (resolvedDLExchangeName pfx supplied) q cn cg
          content pre em = [DLEvent.publishEvt p, DLEvent.ackEvt]
        ∧ p.exchange = resolvedDLExchangeName pfx supplied
        ∧ p.exchange ≠ "" := by
  have hne := resolvedDLExchangeName_ne_empty pfx supplied
  have hex : jsOrString (resolvedDLExchangeName pfx supplied) "" =
      resolvedDLExchangeName pfx supplied := by
    simp [jsOrString, hne]
  refine ⟨hne, by decide, _, rfl, ?_, ?_⟩
  · show jsOrString (resolvedDLExchangeName pfx supplied) "" =
      resolvedDLExchangeName pfx supplied
    exact hex
  · show jsOrString (resolvedDLExchangeName pfx supplied) "" ≠ ""
    rw [hex]
    exact hne

/-- The poll loop succeeds iff the condition turns true at some checked
millisecond within the window. -/
theorem pollLoop_eq_true_iff (ready : Nat → Bool) :
    ∀ r t, pollLoop ready t r = true ↔
      ∃ u, t ≤ u ∧ u ≤ t + r ∧ ready u = true := by
  intro r
  induction r with
  | zero =>
    intro t
    constructor
    · intro h
      exact ⟨t, le_refl t, by omega, h⟩
    · rintro ⟨u, h1, h2, h3⟩
      have : u = t := by omega
      subst this
      exact h3
  | succ n ih =>
    intro t
    constructor
    · intro h
      rw [pollLoop] at h
      by_cases hrt : ready t = true
      · exact ⟨t, le_refl t, by omega, hrt⟩
      · rw [if_neg (by simpa using hrt)] at h
        obtain ⟨u, h1, h2, h3⟩ := (ih (t + 1)).1 h
        exact ⟨u, by omega, by omega, h3⟩
    · rintro ⟨u, h1, h2, h3⟩
      rw [pollLoop]
      by_cases hrt : ready t = true
      · rw [if_pos hrt]
      · rw [if_neg (by simpa using hrt)]
        rcases Nat.eq_or_lt_of_le h1 with heq | hlt
        · exact absurd (heq ▸ h3) hrt
        · exact (ih (t + 1)).2 ⟨u, hlt, by omega, h3⟩

/-- `poll` started at time 0 succeeds iff the condition turns true at or
before `endTime`. -/
theorem pollRun_zero_iff (ready : Nat → Bool) (endTime : Nat) :
    pollRun ready endTime 0 = true ↔
      ∃ u, u ≤ endTime ∧ ready u = true := by
  unfold pollRun
  rw [pollLoop_eq_true_iff]
  simp

/-- C4 (amended): publishing with the write-buffer-ready flag false sends
the message when the flag turns true within the message-level timeout
(default 10000 ms), and fails with the "write buffer full" error when it
does not — but that error is a plain framework error, not a retryable
one. -/
theorem publish_buffer_wait (ready : Nat → Bool) (ot : Option Nat) :
    ((∃ u, u ≤ pollEndTime (resolvedTimeout ot) ∧ ready u = true) →
      publishModel false true false ready ot = (.sent, [.serialize, .send]))
    ∧ ((∀ u, u ≤ pollEndTime (resolvedTimeout ot) → ready u = false) →
      publishModel false true false ready ot =
        (.threw (mkMoleculerError "AMQP publish error: write buffer full"),
          [.serialize]))
    ∧ (mkMoleculerError
        "AMQP publish error: write buffer full").isMoleculerRetryableError
        = false
    ∧ (mkMoleculerError
        "AMQP publish error: write buffer full").isMoleculerError = true
    ∧ resolvedTimeout none = DEFAULT_PUBLISH_TIMEOUT := by
  refine ⟨?_, ?_, rfl, rfl, rfl⟩
  · rintro ⟨u, hu, hr⟩
    have hp : pollRun ready (pollEndTime (resolvedTimeout ot)) 0 = true :=
      (pollRun_zero_iff ready _).2 ⟨u, hu, hr⟩
    simp [publishModel, hp]
  · intro hall
    have hp : pollRun ready (pollEndTime (resolvedTimeout ot)) 0 = false := by
      cases hb : pollRun ready (pollEndTime (resolvedTimeout ot)) 0 with
      | false => rfl
      | true =>
        obtain ⟨u, hu, hr⟩ := (pollRun_zero_iff ready _).1 hb
        rw [hall u hu] at hr
        exact absurd hr (by simp)
    simp [publishModel, hp]

/-- Witness for C4 at timeout 5 ms: an always-ready flag sends, a
never-ready flag fails with the buffer-full error after serializing. -/
theorem publish_buffer_wait_witness :
    publishModel false true false (fun _ => true) (some 5) =
      (.sent, [.serialize, .send])
    ∧ publishModel false true false (fun _ => false) (some 5) =
        (.threw (mkMoleculerError "AMQP publish error: write buffer full"),
          [.serialize]) :=
  ⟨(publish_buffer_wait (fun _ => true) (some 5)).1 ⟨0, by decide, rfl⟩,
    (publish_buffer_wait (fun _ => false) (some 5)).2.1 (fun u _ => rfl)⟩

/-- C4 fails as stated on its last part: the buffer-full error the code
throws is `new MoleculerError(...)`, whose retryable-instance flag is
false, so it is not a transient/retryable error. -/
theorem publish_buffer_error_not_retryable :
    (publishModel false true false (fun _ => false) (some 5)).1 =
      PubOutcome.threw
        (mkMoleculerError "AMQP publish error: write buffer full")
    ∧ (mkMoleculerError
        "AMQP publish error: write buffer full").isMoleculerRetryableError
        = false := by
  exact ⟨by decide, rfl⟩

/-- For a retryable error with positive `maxRetries = N`, the consumer
decision depends only on whether the incremented redelivery count reached
`N`. -/
theorem classifyError_retryable_char (dl : Bool) (N : Nat) (xd : Option Nat)
    (e : JsError) (hN : 0 < N) (he : isNonRetryableClass e = false) :
    classifyError dl (some (N : Int)) xd e =
      if N ≤ redeliveryCount xd then
        (if dl then Disposition.deadLetter else Disposition.ackDrop)
      else Disposition.nackRetry := by
  have h1 : mrFalsy (some (N : Int)) = false := by
    simp [mrFalsy]
    omega
  have h2 : mrPos (some (N : Int)) = true := by
    simp [mrPos]
    exact_mod_cast hN
  unfold classifyError
  rw [if_neg (by simp [he]), if_neg (by simp [h1])]
  by_cases hc : N ≤ redeliveryCount xd
  · rw [if_pos hc, if_pos]
    simp [h2, mrVal]
    exact_mod_cast hc
  · rw [if_neg hc, if_neg]
    simp [h2, mrVal]
    exact_mod_cast Nat.lt_of_not_le hc

/-- Iterating deliveries of an always-retryably-failing handler from prior
death count `c < N`: with at least `N - c` deliveries of fuel, the run ends
after delivery `N` in dead-letter (or drop). -/
theorem retryRun_eval (dl : Bool) (N : Nat) (e : JsError) (hN : 0 < N)
    (he : isNonRetryableClass e = false) :
    ∀ fuel c, c < N → N ≤ c + fuel →
      retryRun dl (some (N : Int)) e fuel c =
        some (N, if dl then Disposition.deadLetter else Disposition.ackDrop) := by
  intro fuel
  induction fuel with
  | zero =>
    intro c h1 h2
    omega
  | succ f ih =>
    intro c h1 h2
    have hcount : redeliveryCount (if c = 0 then none else some c) = c + 1 := by
      by_cases h : c = 0 <;> simp [redeliveryCount, h]
    rw [retryRun, classifyError_retryable_char dl N _ e hN he, hcount]
    by_cases hterm : N ≤ c + 1
    · have hcN : c + 1 = N := by omega
      rw [if_pos hterm]
      cases dl <;> simp [hcN]
    · rw [if_neg hterm]
      exact ih (c + 1) (by omega) (by omega)

/-- C1: for a channel with `maxRetries = N > 0` and a handler that throws a
retryable error on every delivery, the handler is invoked exactly `N`
times: the redelivery count read from the death-history header (0 when
absent) and incremented equals the delivery number — strictly increasing —
every delivery whose incremented count is below `N` is nacked into the
retry queue, and the terminal dead-letter (or acknowledge-and-drop)
disposition is taken exactly on the delivery whose incremented count
reaches `N`. -/
theorem retry_budget_exhaustion (dl : Bool) (N : Nat) (e : JsError)
    (hN : 0 < N) (he : isNonRetryableClass e = false) :
    retryRun dl (some (N : Int)) e N 0 =
      some (N, if dl then Disposition.deadLetter else Disposition.ackDrop)
    ∧ (∀ c, redeliveryCount (if c = 0 then none else some c) = c + 1)
    ∧ (∀ c,
        classifyError dl (some (N : Int)) (if c = 0 then none else some c) e
          = Disposition.nackRetry ↔ c + 1 < N) := by
  have hcount : ∀ c : Nat,
      redeliveryCount (if c = 0 then none else some c) = c + 1 := by
    intro c
    by_cases h : c = 0 <;> simp [redeliveryCount, h]
  refine ⟨retryRun_eval dl N e hN he N 0 hN (by omega), hcount, ?_⟩
  intro c
  rw [classifyError_retryable_char dl N _ e hN he, hcount]
  by_cases hterm : N ≤ c + 1
  · rw [if_pos hterm]
    cases dl <;> simp <;> omega
  · rw [if_neg hterm]
    simp
    omega

/-- Witness for C1 at `maxRetries = 3`: both with and without
dead-lettering the run takes exactly 3 deliveries. -/
theorem retry_budget_exhaustion_witness :
    retryRun true (some ((3 : Nat) : Int))
        (mkMoleculerRetryableError "boom") 3 0 =
      some (3, Disposition.deadLetter)
    ∧ retryRun false (some ((3 : Nat) : Int))
        (mkMoleculerRetryableError "boom") 3 0 =
      some (3, Disposition.ackDrop) := by
  constructor
  · simpa using (retry_budget_exhaustion true 3
      (mkMoleculerRetryableError "boom") (by decide) (by decide)).1
  · simpa using (retry_budget_exhaustion false 3
      (mkMoleculerRetryableError "boom") (by decide) (by decide)).1

/-- C8: for every processed (non-skipped) message, the consumer handler
adds the message id (correlation id, else consumerTag:deliveryTag) to the
channel's active set exactly once, as its first action, and removes it
exactly once; starting from any set not containing the id, after the run
the set is unchanged and the id is not in it. -/
theorem active_message_lifecycle (dl : Bool) (mr : Option Int)
    (cid ct : String) (dt : Nat) (xd : Option Nat) (res : Option JsError)
    (s : Finset String) (hs : messageId cid ct dt ∉ s) :
    (consumerRun false dl mr cid ct dt xd res).count
        (CEvent.addActive (messageId cid ct dt)) = 1
    ∧ (consumerRun false dl mr cid ct dt xd res).count
        (CEvent.removeActive (messageId cid ct dt)) = 1
    ∧ (consumerRun false dl mr cid ct dt xd res).head? =
        some (CEvent.addActive (messageId cid ct dt))
    ∧ (consumerRun false dl mr cid ct dt xd res).foldl applyEvent s = s
    ∧ messageId cid ct dt ∉
        (consumerRun false dl mr cid ct dt xd res).foldl applyEvent s := by
  cases res with
  | none =>
    simp [consumerRun, applyEvent, Finset.erase_insert hs, hs]
  | some e =>
    cases hcl : classifyError dl mr xd e <;>
      simp [consumerRun, hcl, terminalEvents, applyEvent,
        Finset.erase_insert hs, hs]

/-- Witness for C8: a concrete failing delivery starting from the empty
active set. -/
theorem active_message_lifecycle_witness :
    (consumerRun false true (some 3) "" "c" 7 none
        (some (mkMoleculerRetryableError "x"))).count
      (CEvent.addActive (messageId "" "c" 7)) = 1
    ∧ (consumerRun false true (some 3) "" "c" 7 none
        (some (mkMoleculerRetryableError "x"))).foldl applyEvent ∅ = ∅ := by
  have h := active_message_lifecycle true (some 3) "" "c" 7 none
    (some (mkMoleculerRetryableError "x")) ∅ (Finset.not_mem_empty _)
  exact ⟨h.1, h.2.2.2.1⟩

end MoleculerChannels
